import Mathlib

/-!
Verification of the client-side UI controller of the "Windows history" static
site (js/script.js) against its natural-language specification.

The script is a single class, `WindowsHistoryApp`, plus a few free helper
functions.  The state it manipulates is:
  * one persisted string under the localStorage key `site-theme`
    (`STORAGE_KEYS.THEME`), read/written through `safeGetStorage` /
    `safeSetStorage`, both of which catch storage exceptions;
  * the in-memory field `this.currentTheme`;
  * the `data-theme` attribute of the document root and the theme button's
    text / aria-label;
  * transient page state (scroll position, focus, CSS classes, animation
    delays).

The embedding below translates each function of the script into a pure Lean
function over an explicit state record.  Storage failure (localStorage
throwing on `getItem` / `setItem`) is part of the environment and is modelled
by two boolean flags, since the source wraps both calls in try/catch.
A ghost field `writeLog` records every `(key, value)` pair passed to
`localStorage.setItem`, so that statements about "what the program writes"
can be made directly.
-/

namespace WindowsHistory

/-- `STORAGE_KEYS.THEME` from the source (line 17). -/
def STORAGE_KEYS_THEME : String := "site-theme"

/-- `CONFIG.SCROLL_THRESHOLD` (line 23). -/
def SCROLL_THRESHOLD : Nat := 300

/-- `CONFIG.ANIMATION_DELAY` in milliseconds (line 25). -/
def ANIMATION_DELAY : Nat := 120

/-- The browser localStorage as seen by this program.  The program only ever
touches the single key `site-theme`, so the store is modelled as one optional
cell `siteTheme` (`none` = key absent).  `getThrows` / `setThrows` say whether
`localStorage.getItem` / `localStorage.setItem` throw in the current
environment (storage disabled, quota full, ...).  `writeLog` is a ghost trace
of every `(key, value)` argument pair handed to `setItem`. -/
structure LocalStorage where
  siteTheme : Option String
  getThrows : Bool
  setThrows : Bool
  writeLog : List (String × String)
deriving DecidableEq

/-- `safeGetStorage` (source lines 94-101): returns `localStorage.getItem key`,
or `null` when the read throws (the catch branch logs a warning and returns
`null`).  A key other than `site-theme` is never requested by the program and
reads as absent. -/
def safeGetStorage (env : LocalStorage) (key : String) : Option String :=
  if env.getThrows then none
  else if key = STORAGE_KEYS_THEME then env.siteTheme
  else none

/-- `safeSetStorage` (source lines 79-87): calls `localStorage.setItem key value`
and returns `true`; when the write throws, the catch branch logs a warning and
returns `false`, leaving the store unchanged.  The attempted write is recorded
in the ghost `writeLog` in both cases. -/
def safeSetStorage (env : LocalStorage) (key value : String) : LocalStorage × Bool :=
  if env.setThrows then
    ({ env with writeLog := env.writeLog ++ [(key, value)] }, false)
  else
    ({ env with
        siteTheme := if key = STORAGE_KEYS_THEME then some value else env.siteTheme,
        writeLog := env.writeLog ++ [(key, value)] }, true)

/-- JavaScript truthiness of a `string | null` value: `null` and the empty
string are falsy, every other string is truthy (used by the
`if (!userChoice)` test in `handleSystemThemeChange`, line 242). -/
def jsTruthy : Option String → Bool
  | none => false
  | some v => v ≠ ""

/-- The DOM state touched by the theme logic: the `data-theme` attribute of
`document.documentElement` (`none` = attribute absent), and the theme toggle
button (`this.themeBtn`), which may be missing from the page. -/
structure DomState where
  dataTheme : Option String
  themeBtnPresent : Bool
  themeBtnText : String
  themeBtnAria : String
deriving DecidableEq

/-- The controller state relevant to themes: `this.currentTheme`, the storage
environment and the DOM. -/
structure AppState where
  currentTheme : String
  storage : LocalStorage
  dom : DomState
deriving DecidableEq

/-- `WindowsHistoryApp.applyTheme` (source lines 262-281): records the theme in
`this.currentTheme`, sets the `data-theme` attribute on the root element,
updates the theme button's text and aria-label when the button exists, and,
when `save` is true, persists the theme via `safeSetStorage`. -/
def applyTheme (s : AppState) (theme : String) (save : Bool := true) : AppState :=
  let isDark : Bool := theme == "dark"
  let dom0 := { s.dom with dataTheme := some theme }
  let dom :=
    if s.dom.themeBtnPresent then
      { dom0 with
          themeBtnText := if isDark then "☀️ Светлая" else "🌙 Тёмная",
          themeBtnAria :=
            if isDark then "Переключить на светлую тему"
            else "Переключить на тёмную тему" }
    else dom0
  let storage := if save then (safeSetStorage s.storage STORAGE_KEYS_THEME theme).1
                 else s.storage
  { currentTheme := theme, storage := storage, dom := dom }

/-- `WindowsHistoryApp.toggleTheme` (source lines 250-255): computes the theme
opposite to `this.currentTheme` and applies it with the default `save = true`. -/
def toggleTheme (s : AppState) : AppState :=
  let newTheme := if s.currentTheme == "dark" then "light" else "dark"
  applyTheme s newTheme

/-- `WindowsHistoryApp.determineInitialTheme` (source lines 221-232): reads the
stored theme; if it is exactly `"dark"` or `"light"` it is applied without
saving, otherwise the theme matching the system `prefers-color-scheme: dark`
media query (`prefersDark`) is applied without saving. -/
def determineInitialTheme (s : AppState) (prefersDark : Bool) : AppState :=
  match safeGetStorage s.storage STORAGE_KEYS_THEME with
  | some v =>
      if v == "dark" || v == "light" then applyTheme s v false
      else applyTheme s (if prefersDark then "dark" else "light") false
  | none => applyTheme s (if prefersDark then "dark" else "light") false

/-- `WindowsHistoryApp.handleSystemThemeChange` (source lines 238-245): on a
system color-scheme change event with `matches = eMatches`, re-reads the stored
user choice and applies the system theme (without saving) only when that read
result is falsy. -/
def handleSystemThemeChange (s : AppState) (eMatches : Bool) : AppState :=
  let userChoice := safeGetStorage s.storage STORAGE_KEYS_THEME
  if !(jsTruthy userChoice) then
    applyTheme s (if eMatches then "dark" else "light") false
  else s

/-- The theme-related events a page session can deliver to the controller:
the initial-theme determination at load, a click on the theme button, and a
system color-scheme change. -/
inductive AppEvent where
  | initialLoad (prefersDark : Bool)
  | toggleClick
  | systemChange (eMatches : Bool)
deriving DecidableEq

/-- Dispatch of one event to the corresponding handler of the script. -/
def stepApp (s : AppState) (e : AppEvent) : AppState :=
  match e with
  | .initialLoad p => determineInitialTheme s p
  | .toggleClick => toggleTheme s
  | .systemChange m => handleSystemThemeChange s m

/-- A whole session: the fold of `stepApp` over a list of events. -/
def runApp (s : AppState) (es : List AppEvent) : AppState := es.foldl stepApp s

/-- The expression `this.currentTheme === 'dark' ? 'light' : 'dark'` of
`toggleTheme` (source line 251), as a function of the current theme. -/
def oppositeTheme (t : String) : String := if t == "dark" then "light" else "dark"

/-- The theme button text that `applyTheme` assigns for theme `t`
(source line 271). -/
def themeButtonLabel (t : String) : String :=
  if t == "dark" then "☀️ Светлая" else "🌙 Тёмная"

/-!  Initialization (`constructor`, lines 107-120, and `init`, lines 125-140).
`init` checks the `isInitialized` guard at call time; when the guard is down
it registers a `DOMContentLoaded` listener whose callback runs the setup
bundle (`setupElements`, `setupEventListeners`, `setupTheme`, `animateIntro`)
and only then raises the guard.  The browser fires `DOMContentLoaded` once;
every listener registered before that moment runs. -/

/-- The initialization-relevant state: the `this.isInitialized` flag, the
number of `DOMContentLoaded` listeners registered so far and not yet fired,
the number of times the setup bundle has run, and the number of
"already initialized" warnings printed. -/
structure InitState where
  isInitialized : Bool
  pendingLoadListeners : Nat
  setupRuns : Nat
  warnCount : Nat
deriving DecidableEq

/-- `WindowsHistoryApp.init` (source lines 125-140): when `isInitialized` is
already true it warns and returns; otherwise it registers one
`DOMContentLoaded` listener (the guard is not consulted again inside the
listener). -/
def initApp (s : InitState) : InitState :=
  if s.isInitialized then { s with warnCount := s.warnCount + 1 }
  else { s with pendingLoadListeners := s.pendingLoadListeners + 1 }

/-- The single `DOMContentLoaded` firing of a page load: each registered
listener runs the setup bundle once and sets `isInitialized := true`. -/
def fireContentLoaded (s : InitState) : InitState :=
  { s with
      setupRuns := s.setupRuns + s.pendingLoadListeners,
      isInitialized := s.isInitialized || decide (0 < s.pendingLoadListeners),
      pendingLoadListeners := 0 }

/-- The state of a freshly created page, before `new WindowsHistoryApp()`. -/
def freshPage : InitState :=
  { isInitialized := false, pendingLoadListeners := 0, setupRuns := 0, warnCount := 0 }

/-!  Smooth scrolling (`smoothScrollToElement`, lines 47-60). -/

/-- The `options` argument of `smoothScrollToElement`: possible overrides for
the `behavior` and `block` fields that the spread `...options` merges over the
defaults `behavior: 'smooth'`, `block: 'center'`. -/
structure ScrollOptions where
  behavior : Option String := none
  block : Option String := none
deriving DecidableEq

/-- The observable outcome of one `smoothScrollToElement` call: whether the
missing-element warning was printed, and the `(behavior, block)` options of
the `scrollIntoView` call when one happened (`none` = no navigation). -/
structure ScrollOutcome where
  warnedMissing : Bool
  scrolledTo : Option (String × String)
deriving DecidableEq

/-- `smoothScrollToElement` (source lines 47-60): a missing element
(`element` null) produces a console warning and an early return; otherwise the
element is scrolled into view with the merged options. -/
def smoothScrollToElement (elementPresent : Bool) (options : ScrollOptions) :
    ScrollOutcome :=
  if !elementPresent then { warnedMissing := true, scrolledTo := none }
  else
    { warnedMissing := false,
      scrolledTo := some (options.behavior.getD "smooth", options.block.getD "center") }

/-!  Scroll-to-top (`scrollToTop`, lines 299-309, and its wiring in
`setupEventListeners`, lines 171-196). -/

/-- The controls wired to `scrollToTop`: the home button's click listener
(line 173), the scroll-to-top button's click listener (line 188) and its
Enter/Space keydown listener (lines 190-195). -/
inductive ScrollTrigger where
  | homeBtnClick
  | scrollTopBtnClick
  | scrollTopBtnKeydown
deriving DecidableEq

/-- The element identifier of the control that fired a given trigger. -/
def triggerControl : ScrollTrigger → String
  | .homeBtnClick => "homeBtn"
  | .scrollTopBtnClick => "scrollTopBtn"
  | .scrollTopBtnKeydown => "scrollTopBtn"

/-- The page state touched by `scrollToTop`: the last `window.scrollTo`
request (`(top, behavior)`, `none` = none yet) and the identifier of the
focused element (`none` = no element focused by the script). -/
structure PageView where
  scrollRequest : Option (Nat × String)
  focused : Option String
deriving DecidableEq

/-- `WindowsHistoryApp.scrollToTop` (source lines 299-309): smooth-scrolls the
window to `top: 0` and then, when the scroll-to-top button exists, focuses
that button. -/
def scrollToTop (scrollTopBtnPresent : Bool) (p : PageView) : PageView :=
  let p1 := { p with scrollRequest := some (0, "smooth") }
  if scrollTopBtnPresent then { p1 with focused := some "scrollTopBtn" } else p1

/-- The activation of any of the three wired controls: every one of them
invokes `this.scrollToTop()` (source lines 173, 188, 193). -/
def dispatchScrollTrigger (_t : ScrollTrigger) (scrollTopBtnPresent : Bool)
    (p : PageView) : PageView :=
  scrollToTop scrollTopBtnPresent p

/-!  Intro animation (`animateIntro`, lines 286-294). -/

/-- One element matched by the `animateIntro` selector, with its CSS class
list and its inline `animation-delay` in milliseconds (`none` = not set). -/
structure FadeElement where
  classes : List String
  animationDelayMs : Option Nat
deriving DecidableEq

/-- `classList.add c`: appends the class unless it is already present. -/
def classListAdd (c : String) (cs : List String) : List String :=
  if c ∈ cs then cs else cs ++ [c]

/-- The `forEach((el, index) => ...)` body of `animateIntro` from a starting
index: each element gets the `fade-in` class and
`animationDelay = index * CONFIG.ANIMATION_DELAY` milliseconds. -/
def animateIntroFrom (i : Nat) : List FadeElement → List FadeElement
  | [] => []
  | el :: rest =>
      { el with
          classes := classListAdd "fade-in" el.classes,
          animationDelayMs := some (i * ANIMATION_DELAY) } ::
        animateIntroFrom (i + 1) rest

/-- `WindowsHistoryApp.animateIntro` (source lines 286-294) applied to the
elements returned by the selector, in document order. -/
def animateIntro (els : List FadeElement) : List FadeElement :=
  animateIntroFrom 0 els

/-!  Search submission (`handleSearch`, lines 347-359). -/

/-- The whitespace set trimmed by JavaScript's `String.prototype.trim` (the
common code points; exotic Unicode spaces behave identically for this spec). -/
def isJsWhitespace (c : Char) : Bool :=
  c = ' ' || c = '\t' || c = '\n' || c = '\r' ||
  c = Char.ofNat 0x0B || c = Char.ofNat 0x0C || c = Char.ofNat 0xA0 ||
  c = Char.ofNat 0xFEFF

/-- `value.trim()`: drops leading and trailing whitespace. -/
def jsTrim (s : String) : String :=
  String.mk (((s.data.dropWhile isJsWhitespace).reverse.dropWhile isJsWhitespace).reverse)

/-- The search form as `handleSearch` sees it: whether the
`input[name="q"]` element exists, and its current value. -/
structure SearchFormInput where
  inputPresent : Bool
  inputValue : String
deriving DecidableEq

/-- The observable outcome of one `handleSearch` call: the query string it
logged (`none` = nothing logged) and whether it called `preventDefault` on the
submit event. -/
structure SearchOutcome where
  loggedQuery : Option String
  defaultPrevented : Bool
deriving DecidableEq

/-- `WindowsHistoryApp.handleSearch` (source lines 347-359): when the input
exists and its trimmed value is truthy (non-empty), the trimmed query is
logged; the handler never calls `e.preventDefault()`, so the browser's default
submission always proceeds. -/
def handleSearch (f : SearchFormInput) : SearchOutcome :=
  if f.inputPresent && !(jsTrim f.inputValue == "") then
    { loggedQuery := some (jsTrim f.inputValue), defaultPrevented := false }
  else
    { loggedQuery := none, defaultPrevented := false }

/-!  Helper lemmas shared by the claim theorems. -/

theorem applyTheme_currentTheme (s : AppState) (t : String) (save : Bool) :
    (applyTheme s t save).currentTheme = t := rfl

theorem applyTheme_noSave_storage (s : AppState) (t : String) :
    (applyTheme s t false).storage = s.storage := rfl

theorem applyTheme_save_storage (s : AppState) (t : String) :
    (applyTheme s t true).storage = (safeSetStorage s.storage STORAGE_KEYS_THEME t).1 := rfl

theorem applyTheme_dataTheme (s : AppState) (t : String) (save : Bool) :
    (applyTheme s t save).dom.dataTheme = some t := by
  unfold applyTheme
  dsimp only
  split <;> rfl

theorem applyTheme_themeBtnText (s : AppState) (t : String) (save : Bool)
    (hbtn : s.dom.themeBtnPresent = true) :
    (applyTheme s t save).dom.themeBtnText = themeButtonLabel t := by
  unfold applyTheme themeButtonLabel
  simp [hbtn]

theorem applyTheme_themeBtnPresent (s : AppState) (t : String) (save : Bool) :
    (applyTheme s t save).dom.themeBtnPresent = s.dom.themeBtnPresent := by
  unfold applyTheme
  dsimp only
  split <;> rfl

theorem toggleTheme_eq (s : AppState) :
    toggleTheme s = applyTheme s (oppositeTheme s.currentTheme) := rfl

theorem oppositeTheme_ne_empty (t : String) : oppositeTheme t ≠ "" := by
  unfold oppositeTheme
  split <;> simp

theorem oppositeTheme_cases (t : String) :
    oppositeTheme t = "light" ∨ oppositeTheme t = "dark" := by
  unfold oppositeTheme
  split <;> simp

theorem toggleTheme_storage (s : AppState) :
    (toggleTheme s).storage =
      (safeSetStorage s.storage STORAGE_KEYS_THEME (oppositeTheme s.currentTheme)).1 := rfl

theorem safeSetStorage_ok (env : LocalStorage) (v : String)
    (hset : env.setThrows = false) :
    (safeSetStorage env STORAGE_KEYS_THEME v).1 =
      { env with siteTheme := some v, writeLog := env.writeLog ++ [(STORAGE_KEYS_THEME, v)] } := by
  unfold safeSetStorage
  simp [hset, STORAGE_KEYS_THEME]

theorem safeSetStorage_getThrows (env : LocalStorage) (k v : String) :
    (safeSetStorage env k v).1.getThrows = env.getThrows := by
  unfold safeSetStorage
  split <;> rfl

theorem safeSetStorage_setThrows (env : LocalStorage) (k v : String) :
    (safeSetStorage env k v).1.setThrows = env.setThrows := by
  unfold safeSetStorage
  split <;> rfl

/-!  C1. -/

/-- Claim C1: for every page initialization, when the stored value under the
theme key reads back as `"light"` or `"dark"`, `determineInitialTheme` applies
exactly that value; otherwise (key absent, storage read failing, or an invalid
value) it applies the theme matching the system color-scheme preference at
load time; in every case initialization performs no write to storage (the
storage environment, its ghost write log included, is unchanged). -/
theorem c1_determineInitialTheme (s : AppState) (p : Bool) :
    (determineInitialTheme s p).storage = s.storage ∧
    (determineInitialTheme s p).currentTheme =
      (if safeGetStorage s.storage STORAGE_KEYS_THEME = some "light" then "light"
       else if safeGetStorage s.storage STORAGE_KEYS_THEME = some "dark" then "dark"
       else if p then "dark" else "light") ∧
    (determineInitialTheme s p).dom.dataTheme =
      some ((determineInitialTheme s p).currentTheme) := by
  unfold determineInitialTheme
  rcases h : safeGetStorage s.storage STORAGE_KEYS_THEME with _ | v
  · simp [applyTheme_noSave_storage, applyTheme_currentTheme, applyTheme_dataTheme]
  · by_cases hl : v = "light"
    · subst hl
      simp [applyTheme_noSave_storage, applyTheme_currentTheme, applyTheme_dataTheme]
    · by_cases hd : v = "dark"
      · subst hd
        simp [applyTheme_noSave_storage, applyTheme_currentTheme, applyTheme_dataTheme]
      · simp [hl, hd, applyTheme_noSave_storage, applyTheme_currentTheme,
          applyTheme_dataTheme]

/-- A page state with a fully working storage environment (no read or write
throws), current theme `"light"`, empty store: used to instantiate theorems
with storage-health hypotheses at a concrete input. -/
def okState : AppState :=
  { currentTheme := "light",
    storage := { siteTheme := none, getThrows := false, setThrows := false, writeLog := [] },
    dom := { dataTheme := some "light", themeBtnPresent := true,
             themeBtnText := "🌙 Тёмная", themeBtnAria := "Переключить на тёмную тему" } }

/-!  C2. -/

/-- A page state with a working read path but a storage environment whose
`setItem` throws (e.g. quota exceeded), current theme `"light"`. -/
def c2State : AppState :=
  { currentTheme := "light",
    storage := { siteTheme := none, getThrows := false, setThrows := true, writeLog := [] },
    dom := { dataTheme := some "light", themeBtnPresent := true,
             themeBtnText := "🌙 Тёмная", themeBtnAria := "Переключить на тёмную тему" } }

/-- Claim C2, counterexample: with current theme `"light"` and a storage
environment whose write throws (the catch branch of `safeSetStorage`),
`toggleTheme` sets the in-memory theme and the `data-theme` attribute to
`"dark"` but does not persist `"dark"`: the stored value stays absent. -/
theorem c2_counterexample :
    (toggleTheme c2State).currentTheme = "dark" ∧
    (toggleTheme c2State).dom.dataTheme = some "dark" ∧
    (toggleTheme c2State).storage.siteTheme ≠ some "dark" ∧
    (toggleTheme c2State).storage.siteTheme = none := by decide

/-- Claim C2 (amended): for every current theme, `toggleTheme` sets the
in-memory theme and the root `data-theme` attribute to the opposite theme and
passes exactly that opposite value to the storage write under the theme key;
the write lands in storage whenever the storage write does not throw (here:
`setThrows = false`); the opposite of `"light"` is `"dark"` and vice versa. -/
theorem c2_toggleTheme (s : AppState) (hset : s.storage.setThrows = false) :
    (toggleTheme s).currentTheme = oppositeTheme s.currentTheme ∧
    (toggleTheme s).dom.dataTheme = some (oppositeTheme s.currentTheme) ∧
    (toggleTheme s).storage.siteTheme = some (oppositeTheme s.currentTheme) ∧
    (toggleTheme s).storage.writeLog =
      s.storage.writeLog ++ [(STORAGE_KEYS_THEME, oppositeTheme s.currentTheme)] ∧
    oppositeTheme "light" = "dark" ∧ oppositeTheme "dark" = "light" := by
  refine ⟨?_, ?_, ?_, ?_, by decide, by decide⟩
  · rw [toggleTheme_eq, applyTheme_currentTheme]
  · rw [toggleTheme_eq, applyTheme_dataTheme]
  · rw [toggleTheme_storage, safeSetStorage_ok s.storage _ hset]
  · rw [toggleTheme_storage, safeSetStorage_ok s.storage _ hset]

/-- Claim C2 witness: the amended theorem applied at a concrete state. -/
theorem c2_toggleTheme_witness :
    (toggleTheme okState).currentTheme = oppositeTheme okState.currentTheme ∧
    (toggleTheme okState).dom.dataTheme = some (oppositeTheme okState.currentTheme) ∧
    (toggleTheme okState).storage.siteTheme = some (oppositeTheme okState.currentTheme) ∧
    (toggleTheme okState).storage.writeLog =
      okState.storage.writeLog ++ [(STORAGE_KEYS_THEME, oppositeTheme okState.currentTheme)] ∧
    oppositeTheme "light" = "dark" ∧ oppositeTheme "dark" = "light" :=
  c2_toggleTheme okState rfl

/-!  C3. -/

/-- A page state whose storage write path works but whose read path throws
(`getItem` failing while `setItem` still succeeds), current theme `"light"`. -/
def c3State : AppState :=
  { currentTheme := "light",
    storage := { siteTheme := none, getThrows := true, setThrows := false, writeLog := [] },
    dom := { dataTheme := some "light", themeBtnPresent := true,
             themeBtnText := "🌙 Тёмная", themeBtnAria := "Переключить на тёмную тему" } }

/-- Claim C3, counterexample: the user toggles once and the write succeeds
(the preference `"dark"` is persisted), yet the next system change event
(`matches = false`) still alters the applied theme back to `"light"`, because
the event's storage read throws and reads back as absent. -/
theorem c3_counterexample :
    (toggleTheme c3State).storage.siteTheme = some "dark" ∧
    (toggleTheme c3State).currentTheme = "dark" ∧
    (toggleTheme c3State).dom.dataTheme = some "dark" ∧
    (handleSystemThemeChange (toggleTheme c3State) false).currentTheme = "light" ∧
    (handleSystemThemeChange (toggleTheme c3State) false).dom.dataTheme =
      some "light" := by decide

/-- Claim C3 (amended): after a toggle, provided the storage write succeeded
and the subsequent storage read does not throw, every system color-scheme
change event leaves the state (in-memory theme and `data-theme` attribute
included) entirely unchanged; in general a system change event alters the
theme only when the value read back from storage at event time is falsy
(key absent, read failure), and otherwise leaves the state unchanged. -/
theorem c3_systemChange (s : AppState) (m : Bool)
    (hset : s.storage.setThrows = false) (hget : s.storage.getThrows = false) :
    handleSystemThemeChange (toggleTheme s) m = toggleTheme s ∧
    handleSystemThemeChange s m =
      (if jsTruthy (safeGetStorage s.storage STORAGE_KEYS_THEME) = true then s
       else applyTheme s (if m then "dark" else "light") false) := by
  have hst : (toggleTheme s).storage.siteTheme = some (oppositeTheme s.currentTheme) := by
    rw [toggleTheme_storage, safeSetStorage_ok s.storage _ hset]
  have hgt : (toggleTheme s).storage.getThrows = false := by
    rw [toggleTheme_storage, safeSetStorage_getThrows]
    exact hget
  have hread : safeGetStorage (toggleTheme s).storage STORAGE_KEYS_THEME =
      some (oppositeTheme s.currentTheme) := by
    unfold safeGetStorage
    simp [hgt, hst]
  have htr : jsTruthy (safeGetStorage (toggleTheme s).storage STORAGE_KEYS_THEME) = true := by
    rw [hread]
    unfold jsTruthy
    simp [oppositeTheme_ne_empty]
  constructor
  · unfold handleSystemThemeChange
    simp [htr]
  · unfold handleSystemThemeChange
    rcases h : jsTruthy (safeGetStorage s.storage STORAGE_KEYS_THEME) <;> simp [h]

/-- Claim C3 witness: the amended theorem applied at a concrete healthy
state. -/
theorem c3_systemChange_witness :
    handleSystemThemeChange (toggleTheme okState) true = toggleTheme okState ∧
    handleSystemThemeChange okState true =
      (if jsTruthy (safeGetStorage okState.storage STORAGE_KEYS_THEME) = true then okState
       else applyTheme okState (if true then "dark" else "light") false) :=
  c3_systemChange okState true rfl rfl

/-!  C4. -/

theorem determineInitialTheme_storage (s : AppState) (p : Bool) :
    (determineInitialTheme s p).storage = s.storage := by
  unfold determineInitialTheme
  rcases safeGetStorage s.storage STORAGE_KEYS_THEME with _ | v
  · exact applyTheme_noSave_storage s _
  · dsimp only
    split <;> exact applyTheme_noSave_storage s _

theorem handleSystemThemeChange_storage (s : AppState) (m : Bool) :
    (handleSystemThemeChange s m).storage = s.storage := by
  unfold handleSystemThemeChange
  dsimp only
  split
  · exact applyTheme_noSave_storage s _
  · rfl

/-- Each event either leaves the storage environment untouched, or routes it
through `safeSetStorage` applied to the theme key and the opposite of the
current theme (the only write site, inside `toggleTheme`). -/
theorem stepApp_storage (s : AppState) (e : AppEvent) :
    (stepApp s e).storage = s.storage ∨
    (stepApp s e).storage =
      (safeSetStorage s.storage STORAGE_KEYS_THEME (oppositeTheme s.currentTheme)).1 := by
  cases e with
  | initialLoad p => exact Or.inl (determineInitialTheme_storage s p)
  | toggleClick => exact Or.inr (toggleTheme_storage s)
  | systemChange m => exact Or.inl (handleSystemThemeChange_storage s m)

/-- The predicate "every logged `setItem` call targeted the theme key with the
value `"light"` or `"dark"`", as a boolean check over the ghost write log. -/
def goodWriteLog (log : List (String × String)) : Bool :=
  log.all (fun kv => kv.1 == STORAGE_KEYS_THEME && (kv.2 == "light" || kv.2 == "dark"))

theorem safeSetStorage_theme_invariant (env : LocalStorage) (v : String)
    (hv : v = "light" ∨ v = "dark")
    (hlog : goodWriteLog env.writeLog = true)
    (hstored : env.siteTheme = none ∨ env.siteTheme = some "light" ∨
      env.siteTheme = some "dark") :
    goodWriteLog (safeSetStorage env STORAGE_KEYS_THEME v).1.writeLog = true ∧
    ((safeSetStorage env STORAGE_KEYS_THEME v).1.siteTheme = none ∨
     (safeSetStorage env STORAGE_KEYS_THEME v).1.siteTheme = some "light" ∨
     (safeSetStorage env STORAGE_KEYS_THEME v).1.siteTheme = some "dark") := by
  unfold safeSetStorage goodWriteLog
  rcases hs : env.setThrows <;>
    rcases hv with h | h <;>
      subst h <;>
        simp_all [goodWriteLog, List.all_append] <;>
          assumption

theorem runApp_storage_invariant (es : List AppEvent) (s : AppState)
    (hlog : goodWriteLog s.storage.writeLog = true)
    (hstored : s.storage.siteTheme = none ∨ s.storage.siteTheme = some "light" ∨
      s.storage.siteTheme = some "dark") :
    goodWriteLog (runApp s es).storage.writeLog = true ∧
    ((runApp s es).storage.siteTheme = none ∨
     (runApp s es).storage.siteTheme = some "light" ∨
     (runApp s es).storage.siteTheme = some "dark") := by
  induction es generalizing s with
  | nil => exact ⟨hlog, hstored⟩
  | cons e rest ih =>
      have hrun : runApp s (e :: rest) = runApp (stepApp s e) rest := rfl
      rw [hrun]
      rcases stepApp_storage s e with h | h
      · exact ih (stepApp s e) (by rw [h]; exact hlog) (by rw [h]; exact hstored)
      · have hinv := safeSetStorage_theme_invariant s.storage (oppositeTheme s.currentTheme)
          (oppositeTheme_cases _) hlog hstored
        exact ih (stepApp s e) (by rw [h]; exact hinv.1) (by rw [h]; exact hinv.2)

theorem handleSystemThemeChange_currentTheme (s : AppState) (m : Bool) :
    (handleSystemThemeChange s m).currentTheme =
      (if jsTruthy (safeGetStorage s.storage STORAGE_KEYS_THEME) = true
       then s.currentTheme else if m then "dark" else "light") := by
  unfold handleSystemThemeChange
  rcases h : jsTruthy (safeGetStorage s.storage STORAGE_KEYS_THEME) <;>
    simp [h, applyTheme_currentTheme]

/-- Claim C4: over every event sequence of a session, every value the program
hands to the storage write is the theme key paired with `"light"` or `"dark"`
(checked on the ghost write log), so a store that starts absent-or-valid stays
absent-or-valid; and a system change event whose storage read yields nothing
truthy (key absent, read failure) defers to the system preference, while a
truthy read leaves the theme unchanged. -/
theorem c4_write_invariant (s : AppState) (es : List AppEvent) (m : Bool)
    (hlog : goodWriteLog s.storage.writeLog = true)
    (hstored : s.storage.siteTheme = none ∨ s.storage.siteTheme = some "light" ∨
      s.storage.siteTheme = some "dark") :
    goodWriteLog (runApp s es).storage.writeLog = true ∧
    ((runApp s es).storage.siteTheme = none ∨
     (runApp s es).storage.siteTheme = some "light" ∨
     (runApp s es).storage.siteTheme = some "dark") ∧
    (handleSystemThemeChange s m).currentTheme =
      (if jsTruthy (safeGetStorage s.storage STORAGE_KEYS_THEME) = true
       then s.currentTheme else if m then "dark" else "light") :=
  ⟨(runApp_storage_invariant es s hlog hstored).1,
   (runApp_storage_invariant es s hlog hstored).2,
   handleSystemThemeChange_currentTheme s m⟩

/-- Claim C4 witness: the invariant applied to a concrete session (initial
load under a dark system preference, a user toggle, then a system change). -/
theorem c4_write_invariant_witness :
    goodWriteLog (runApp okState [AppEvent.initialLoad true, AppEvent.toggleClick,
        AppEvent.systemChange false]).storage.writeLog = true ∧
    ((runApp okState [AppEvent.initialLoad true, AppEvent.toggleClick,
        AppEvent.systemChange false]).storage.siteTheme = none ∨
     (runApp okState [AppEvent.initialLoad true, AppEvent.toggleClick,
        AppEvent.systemChange false]).storage.siteTheme = some "light" ∨
     (runApp okState [AppEvent.initialLoad true, AppEvent.toggleClick,
        AppEvent.systemChange false]).storage.siteTheme = some "dark") ∧
    (handleSystemThemeChange okState false).currentTheme =
      (if jsTruthy (safeGetStorage okState.storage STORAGE_KEYS_THEME) = true
       then okState.currentTheme else if false then "dark" else "light") :=
  c4_write_invariant okState
    [AppEvent.initialLoad true, AppEvent.toggleClick, AppEvent.systemChange false]
    false rfl (Or.inl rfl)

/-!  C5. -/

/-- Claim C5, divergence trace: on a fresh page, calling `init` twice before
the `DOMContentLoaded` event fires registers two load listeners and no warning
is printed, and when the event then fires the setup bundle (element
resolution, listener wiring, theme setup, intro animation) runs twice — the
guard only blocks calls made after a listener has already run.  By contrast, a
further `init` call after the load event is a genuine no-op apart from the
warning. -/
theorem c5_init_guard_bug :
    (fireContentLoaded (initApp (initApp freshPage))).setupRuns = 2 ∧
    (fireContentLoaded (initApp (initApp freshPage))).warnCount = 0 ∧
    (initApp (fireContentLoaded (initApp freshPage))).setupRuns = 1 ∧
    (initApp (fireContentLoaded (initApp freshPage))).warnCount = 1 ∧
    (initApp (fireContentLoaded (initApp freshPage))).pendingLoadListeners = 0 := by
  decide

/-!  C6. -/

/-- Claim C6: for every activation of the smooth-scroll-to-section feature,
a missing target element produces the console warning and no `scrollIntoView`
call (no navigation, no error surfaced), while an existing target is scrolled
into view with the merged options — in particular, with the app's call (no
option overrides), smoothly and centered. -/
theorem c6_smoothScrollToElement (options : ScrollOptions) :
    smoothScrollToElement false options =
      { warnedMissing := true, scrolledTo := none } ∧
    (smoothScrollToElement true options).warnedMissing = false ∧
    (smoothScrollToElement true options).scrolledTo =
      some (options.behavior.getD "smooth", options.block.getD "center") ∧
    (smoothScrollToElement true {}).scrolledTo = some ("smooth", "center") := by
  refine ⟨rfl, rfl, rfl, rfl⟩

/-!  C7. -/

/-- A page on which the user has just activated the home button (so the home
button holds keyboard focus), with the scroll-to-top button present. -/
def c7Page : PageView := { scrollRequest := none, focused := some "homeBtn" }

/-- Claim C7, counterexample: a scroll-to-top operation triggered by the home
button does smooth-scroll the window to the origin, but moves keyboard focus
to the scroll-to-top button, not back to the triggering control (the home
button): `scrollToTop` always focuses `this.scrollTopBtn`. -/
theorem c7_counterexample :
    (dispatchScrollTrigger ScrollTrigger.homeBtnClick true c7Page).scrollRequest =
      some (0, "smooth") ∧
    triggerControl ScrollTrigger.homeBtnClick = "homeBtn" ∧
    (dispatchScrollTrigger ScrollTrigger.homeBtnClick true c7Page).focused =
      some "scrollTopBtn" ∧
    (dispatchScrollTrigger ScrollTrigger.homeBtnClick true c7Page).focused ≠
      some (triggerControl ScrollTrigger.homeBtnClick) := by
  decide

/-- Claim C7 (amended): every activation of a control wired to the
scroll-to-top operation (home button click, scroll-to-top button click or
keyboard activation) smooth-scrolls the window to the page origin and then
moves keyboard focus to the scroll-to-top button when that button exists,
leaving focus unchanged otherwise; focus thus returns to the triggering
control exactly when that control is the scroll-to-top button itself. -/
theorem c7_scrollToTop (t : ScrollTrigger) (present : Bool) (p : PageView) :
    (dispatchScrollTrigger t present p).scrollRequest = some (0, "smooth") ∧
    (dispatchScrollTrigger t present p).focused =
      (if present then some "scrollTopBtn" else p.focused) := by
  unfold dispatchScrollTrigger scrollToTop
  rcases present <;> simp

/-!  C8. -/

/-- Claim C8: a search-form submission never prevents the browser's default
submission, logs exactly the trimmed query when the `q` input exists and its
trimmed value is non-empty, and records nothing otherwise — in particular
`"  windows 95  "` logs exactly `"windows 95"`, a whitespace-only value logs
nothing, and a missing input logs nothing. -/
theorem c8_handleSearch (f : SearchFormInput) :
    (handleSearch f).defaultPrevented = false ∧
    (handleSearch f).loggedQuery =
      (if f.inputPresent && !(jsTrim f.inputValue == "") then some (jsTrim f.inputValue)
       else none) ∧
    (handleSearch { inputPresent := true, inputValue := "  windows 95  " }).loggedQuery =
      some "windows 95" ∧
    (handleSearch { inputPresent := true, inputValue := "   " }).loggedQuery = none ∧
    (handleSearch { inputPresent := false, inputValue := "windows 95" }).loggedQuery =
      none := by
  refine ⟨?_, ?_, by decide, by decide, by decide⟩
  · unfold handleSearch
    split <;> rfl
  · unfold handleSearch
    split <;> rfl

/-!  C9. -/

theorem animateIntroFrom_delays (els : List FadeElement) (i : Nat) :
    (animateIntroFrom i els).map (fun el => el.animationDelayMs) =
      (List.range' i els.length).map (fun k => some (k * ANIMATION_DELAY)) := by
  induction els generalizing i with
  | nil => rfl
  | cons el rest ih => simp [animateIntroFrom, List.range', ih]

theorem animateIntroFrom_delaysD (els : List FadeElement) (i : Nat) :
    (animateIntroFrom i els).map (fun el => el.animationDelayMs.getD 0) =
      (List.range' i els.length).map (fun k => k * ANIMATION_DELAY) := by
  induction els generalizing i with
  | nil => rfl
  | cons el rest ih => simp [animateIntroFrom, List.range', ih]

theorem pairwise_lt_range'_mulDelay (n i : Nat) :
    List.Pairwise (· < ·) ((List.range' i n).map (fun k => k * ANIMATION_DELAY)) := by
  induction n generalizing i with
  | zero => simp
  | succ n ih =>
      have hcons : List.range' i (n + 1) = i :: List.range' (i + 1) n := rfl
      rw [hcons, List.map_cons, List.pairwise_cons]
      refine ⟨?_, ih (i + 1)⟩
      intro b hb
      simp only [List.mem_map] at hb
      obtain ⟨k, hk, rfl⟩ := hb
      have hik : i + 1 ≤ k := (List.mem_range'_1.mp hk).1
      simp only [ANIMATION_DELAY]
      omega

theorem animateIntroFrom_fadeIn (els : List FadeElement) (i : Nat) :
    (animateIntroFrom i els).all (fun el => el.classes.contains "fade-in") = true := by
  induction els generalizing i with
  | nil => rfl
  | cons el rest ih =>
      simp only [animateIntroFrom, List.all_cons, Bool.and_eq_true]
      refine ⟨?_, ih (i + 1)⟩
      show (classListAdd "fade-in" el.classes).contains "fade-in" = true
      unfold classListAdd
      split <;> simp_all

/-- Claim C9: the intro animation assigns the selected content blocks, taken
in document order, the delays `index * ANIMATION_DELAY` (120 ms) — a sequence
that starts at zero for the first block and is strictly increasing across the
blocks — and marks every block with the `fade-in` class. -/
theorem c9_animateIntro (els : List FadeElement) :
    (animateIntro els).map (fun el => el.animationDelayMs) =
      (List.range els.length).map (fun i => some (i * ANIMATION_DELAY)) ∧
    List.Pairwise (· < ·)
      ((animateIntro els).map (fun el => el.animationDelayMs.getD 0)) ∧
    (animateIntro els).all (fun el => el.classes.contains "fade-in") = true ∧
    0 < ANIMATION_DELAY ∧
    ((animateIntro els).map (fun el => el.animationDelayMs)).head? =
      (if els = [] then none else some (some 0)) := by
  refine ⟨?_, ?_, animateIntroFrom_fadeIn els 0, by decide, ?_⟩
  · rw [animateIntro, animateIntroFrom_delays, List.range_eq_range']
  · rw [animateIntro, animateIntroFrom_delaysD]
    exact pairwise_lt_range'_mulDelay els.length 0
  · rw [animateIntro, animateIntroFrom_delays]
    cases els with
    | nil => rfl
    | cons el rest => simp [List.range']

/-!  C10. -/

/-- A page state with current theme `"light"`, no persisted value, no
`data-theme` attribute yet, and a storage environment whose write throws. -/
def c10State : AppState :=
  { currentTheme := "light",
    storage := { siteTheme := none, getThrows := false, setThrows := true, writeLog := [] },
    dom := { dataTheme := none, themeBtnPresent := true,
             themeBtnText := "🌙 Тёмная", themeBtnAria := "Переключить на тёмную тему" } }

/-- Claim C10, counterexample: starting from theme `"light"` with a failing
storage write, toggling twice restores the in-memory theme but the persisted
value does not end up at the value for `"light"` (it stays absent), and the
root attribute does not return to its original (absent) state either. -/
theorem c10_counterexample :
    (toggleTheme (toggleTheme c10State)).currentTheme = "light" ∧
    (toggleTheme (toggleTheme c10State)).storage.siteTheme ≠ some "light" ∧
    (toggleTheme (toggleTheme c10State)).storage.siteTheme = none ∧
    (toggleTheme (toggleTheme c10State)).dom.dataTheme ≠ c10State.dom.dataTheme := by
  decide

/-- Claim C10 (amended): for every theme `t` in `{"light","dark"}`, from any
state whose current theme is `t`, whose theme button exists and whose storage
write succeeds, applying `toggleTheme` twice yields current theme `t`,
`data-theme` attribute `t`, the theme button label for `t`, and persisted
value `t` (double toggle lands the whole theme state on the values for `t`). -/
theorem c10_double_toggle (s : AppState) (t : String)
    (ht : t = "light" ∨ t = "dark") (hcur : s.currentTheme = t)
    (hset : s.storage.setThrows = false) (hbtn : s.dom.themeBtnPresent = true) :
    (toggleTheme (toggleTheme s)).currentTheme = t ∧
    (toggleTheme (toggleTheme s)).dom.dataTheme = some t ∧
    (toggleTheme (toggleTheme s)).dom.themeBtnText = themeButtonLabel t ∧
    (toggleTheme (toggleTheme s)).storage.siteTheme = some t := by
  have h1cur : (toggleTheme s).currentTheme = oppositeTheme t := by
    rw [toggleTheme_eq, applyTheme_currentTheme, hcur]
  have h1set : (toggleTheme s).storage.setThrows = false := by
    rw [toggleTheme_storage, safeSetStorage_setThrows]
    exact hset
  have h1btn : (toggleTheme s).dom.themeBtnPresent = true := by
    rw [toggleTheme_eq, applyTheme_themeBtnPresent]
    exact hbtn
  have hopp : oppositeTheme (oppositeTheme t) = t := by
    rcases ht with h | h <;> subst h <;> decide
  refine ⟨?_, ?_, ?_, ?_⟩
  · rw [toggleTheme_eq (toggleTheme s), applyTheme_currentTheme, h1cur, hopp]
  · rw [toggleTheme_eq (toggleTheme s), applyTheme_dataTheme, h1cur, hopp]
  · rw [toggleTheme_eq (toggleTheme s), applyTheme_themeBtnText _ _ _ h1btn, h1cur, hopp]
  · rw [toggleTheme_storage (toggleTheme s), safeSetStorage_ok _ _ h1set]
    simp [h1cur, hopp]

/-- Claim C10 witness: the amended theorem applied at a concrete healthy
state with current theme `"light"`. -/
theorem c10_double_toggle_witness :
    (toggleTheme (toggleTheme okState)).currentTheme = "light" ∧
    (toggleTheme (toggleTheme okState)).dom.dataTheme = some "light" ∧
    (toggleTheme (toggleTheme okState)).dom.themeBtnText = themeButtonLabel "light" ∧
    (toggleTheme (toggleTheme okState)).storage.siteTheme = some "light" :=
  c10_double_toggle okState "light" (Or.inl rfl) rfl rfl rfl

end WindowsHistory
